import Mathlib

/-!
Verification of the AI-Demo-Builder session-orchestration pipeline.

Shallow embedding of the Python Lambda handlers:
* `src/lambda/upload-pipeline/format-converter/handler.py`
  (`update_conversion_status`, `check_all_videos_ready`, the post-conversion
  stitch trigger of `handler`),
* `src/lambda/upload-pipeline/video-validator/handler.py`
  (`validate_video`, `update_validation_status`),
* `src/lambda/infrastructure/status-tracker/lambda_function.py`
  (`calculate_progress`, `get_status_message`),
* `src/lambda/infrastructure/cleanup-service/lambda_function.py`
  (the expiry sweep of `lambda_handler`),
* `src/lambda/shared/dynamo_utils.py` (`set_demo_url`, session shape),
* `src/lambda-layer/python/shared/constants.py` (`Status`),
* `src/ai-suggestions-pipeline/lambdas/service6-session-creator/lambda_function.py`
  (`lambda_handler`),
* `src/ai-suggestions-pipeline/lambdas/service5-session-creator/lambda_function.py`
  (the `expires_at` computation),
* `src/ai-suggestions-pipeline/lambdas/service4-ai-suggestions/lambda_function.py`
  (`generate_video_suggestions`, `parse_gemini_response`,
  `extract_suggestions_from_text`, `create_fallback_suggestions`).

DynamoDB items are embedded as Lean structures; a DynamoDB map attribute
(`uploaded_videos`) is an association list keyed by strings; a DynamoDB
`update_item` on a nested document path is a function that fails
(`Except.error`, mirroring the raised `ClientError`) when the path's parent
key is absent and otherwise replaces the addressed sub-attribute.  External
effects (S3, ffmpeg/ffprobe, the Gemini API, `json.loads`, the wall clock)
are parameters of the embedded functions.
-/

instance {ε α : Type} [DecidableEq ε] [DecidableEq α] : DecidableEq (Except ε α)
  | Except.error a, Except.error b => decidable_of_iff (a = b) (by simp)
  | Except.error _, Except.ok _ => Decidable.isFalse (by simp)
  | Except.ok _, Except.error _ => Decidable.isFalse (by simp)
  | Except.ok a, Except.ok b => decidable_of_iff (a = b) (by simp)

/-- Python `str.strip()` (whitespace from both ends), character-wise. -/
def pyStrip (s : String) : String :=
  String.mk (((s.toList.dropWhile Char.isWhitespace).reverse.dropWhile
    Char.isWhitespace).reverse)

/-- Python `s.startswith(pre)`. -/
def pyStartsWith (s pre : String) : Bool := pre.toList.isPrefixOf s.toList

/-- Python `s.endswith(suf)`. -/
def pyEndsWith (s suf : String) : Bool := suf.toList.reverse.isPrefixOf s.toList.reverse

/-- Python `len(s)`. -/
def pyLen (s : String) : Nat := s.toList.length

/-- Python `s[n:]`. -/
def pyDrop (s : String) (n : Nat) : String := String.mk (s.toList.drop n)

/-- Python `s[:-n]`. -/
def pyDropRight (s : String) (n : Nat) : String :=
  String.mk (s.toList.take (s.toList.length - n))

/-- Python `str.split(c)` on a single separator character:
`"".split(c) = ['']`, and every separator opens a new (possibly empty)
part. -/
def splitCharList (c : Char) : List Char → List (List Char)
  | [] => [[]]
  | x :: rest =>
      match splitCharList c rest with
      | [] => [[]]
      | cur :: parts => if x = c then [] :: cur :: parts else (x :: cur) :: parts

/-- Python `text.split('\n')`. -/
def pySplitLines (s : String) : List String := (splitCharList '\n' s.toList).map String.mk

/-- Everything after the first occurrence of `c`, or `none` when `c` does
not occur. -/
def dropThroughFirst (c : Char) : List Char → Option (List Char)
  | [] => none
  | x :: rest => if x = c then some rest else dropThroughFirst c rest

/-- Python `dict.get(key)` / DynamoDB map member lookup on an association
list. -/
def dictGet {α : Type} : List (String × α) → String → Option α
  | [], _ => none
  | (k, v) :: rest, key => if k = key then some v else dictGet rest key

/-- Replacement of the value stored at `key`; a key that is absent is left
absent (the callers below only use `dictSet` after a successful `dictGet`,
matching DynamoDB's document-path update). -/
def dictSet {α : Type} : List (String × α) → String → α → List (String × α)
  | [], _, _ => []
  | (k, v) :: rest, key, v' =>
      if k = key then (k, v') :: rest else (k, v) :: dictSet rest key v'

/-- The `conversion_result` dict built by `convert_video` on success
(format-converter handler.py, lines 163-171). -/
structure ConversionDetails where
  success : Bool
  output_size : Nat
  duration : ℚ
  format : String
  resolution : String
  fps : Nat
  codec : String
deriving DecidableEq, Repr

/-- The `update_data` dict written to `uploaded_videos.<id>.converted_data`
by `update_conversion_status` (format-converter handler.py, lines 191-196). -/
structure ConvertedData where
  status : String
  standardized_key : String
  conversion_timestamp : String
  conversion_details : ConversionDetails
deriving DecidableEq, Repr

/-- The `validation_result` dict of `validate_video`
(video-validator handler.py, lines 85-90); the `metadata` sub-dict carries no
decision weight and is not modelled. -/
structure ValidationResult where
  valid : Bool
  errors : List String
  warnings : List String
deriving DecidableEq, Repr

/-- One entry of the session's `uploaded_videos` map: the per-suggestion
UploadRecord.  The validator intends to write `status`
(`validated`/`validation_failed`) — a write that in fact always raises, see
`update_validation_status` — and the converter writes `converted_data`. -/
structure UploadRecord where
  status : String
  s3_key : String
  validation : Option ValidationResult
  converted_data : Option ConvertedData
deriving DecidableEq, Repr

/-- One suggestion as stored by service5 (`transformed_suggestions`); only
the fields the orchestration logic reads are carried. -/
structure Suggestion where
  id : String
  sequence_number : Nat
  title : String
deriving DecidableEq, Repr

/-- A session item of the DynamoDB `Sessions` table (shape of
`dynamo_utils.create_session` / service5's `session_item`). -/
structure Session where
  id : String
  github_url : String
  project_name : String
  status : String
  suggestions : List Suggestion
  uploaded_videos : List (String × UploadRecord)
  demo_url : String
  created_at : String
  expires_at : Int
deriving DecidableEq, Repr

/-- The `suggestion_{i}` key under which per-suggestion upload data is kept. -/
def suggestionKey (i : Nat) : String := "suggestion_" ++ toString i

/-- `check_all_videos_ready` (format-converter handler.py, lines 216-245):
`none` stands for a missing table item (the `'Item' not in response` branch);
for each index `i` of `suggestions` the key `suggestion_{i+1}` must be present
in `uploaded_videos` and its `converted_data` attribute must be set. -/
def check_all_videos_ready : Option Session → Bool
  | none => false
  | some item =>
      (List.range item.suggestions.length).all fun i =>
        match dictGet item.uploaded_videos (suggestionKey (i + 1)) with
        | none => false
        | some video_data => video_data.converted_data.isSome

/-- `update_conversion_status` (format-converter handler.py, lines 185-214):
`SET uploaded_videos.suggestion_<id>.converted_data = :data`.  `now_ms` is
the clock read `int(os.times().elapsed * 1000)`.  The DynamoDB call raises
(re-raised by the function) when the document path's parent
`uploaded_videos.suggestion_<id>` does not exist; otherwise the
`converted_data` attribute is overwritten unconditionally. -/
def update_conversion_status (s : Session) (suggestion_id : String)
    (output_key : String) (conversion_result : ConversionDetails)
    (now_ms : Nat) : Except String Session :=
  let update_data : ConvertedData :=
    { status := "converted"
      standardized_key := output_key
      conversion_timestamp := toString now_ms
      conversion_details := conversion_result }
  match dictGet s.uploaded_videos ("suggestion_" ++ suggestion_id) with
  | none => Except.error "document path invalid for update"
  | some record =>
      let record' := { record with converted_data := some update_data }
      let uv' := dictSet s.uploaded_videos ("suggestion_" ++ suggestion_id) record'
      Except.ok { s with uploaded_videos := uv' }

/-- `update_validation_status` (video-validator handler.py, lines 174-207):
intends `SET #uploads.#suggId.#validation = :val, #uploads.#suggId.#status
= :status` with `:status` = `validated` when `valid` and
`validation_failed` otherwise — but its `ExpressionAttributeNames` (lines
181-185) declare only `#uploads`, `#suggId` and `#validation`, while both
branches (lines 191/194) append a clause using the undeclared `#status`.
DynamoDB rejects an update expression containing an undeclared name token
with a `ValidationException` when it validates the request, before reading
or writing the item, so every call raises (the `except` re-raises, line
207) and neither the validation result nor any record status is ever
stored. -/
def update_validation_status (s : Session) (suggestion_id : String)
    (validation_result : ValidationResult) : Except String Session :=
  let _ := s
  let _ := suggestion_id
  let _ := validation_result
  Except.error "ValidationException: An expression attribute name used in the document path is not defined; attribute name: #status"

/-- The success path of the converter's `handler` after a successful upload
(format-converter handler.py, lines 60-66): update the conversion status,
then trigger stitching exactly when `check_all_videos_ready` holds on the
updated session.  The returned Bool is whether `trigger_video_stitching`
is invoked. -/
def converter_success_continuation (s : Session) (suggestion_id : String)
    (output_key : String) (conversion_result : ConversionDetails)
    (now_ms : Nat) : Except String (Session × Bool) :=
  match update_conversion_status s suggestion_id output_key conversion_result now_ms with
  | Except.error e => Except.error e
  | Except.ok s2 => Except.ok (s2, check_all_videos_ready (some s2))

/-! ## Status tracker (`status-tracker/lambda_function.py`) -/

/-- The result of `calculate_progress` (lines 65-105): percentages are
Python floats, embedded as exact rationals (all the arithmetic involved is
exact). -/
structure Progress where
  percentage : ℚ
  status : String
  uploaded : Nat
  total : Nat
  message : String
deriving DecidableEq, Repr

/-- `get_status_message` (status-tracker lambda_function.py, lines 108-130). -/
def get_status_message (status : String) (uploaded_count total_videos : Nat) : String :=
  if status = "initialized" then "Session initialized"
  else if status = "generating_suggestions" then "AI is analyzing your repository..."
  else if status = "suggestions_ready" then "Ready for video uploads"
  else if status = "uploading" then
    "Uploaded " ++ toString uploaded_count ++ " of " ++ toString total_videos ++ " videos"
  else if status = "processing" then "Stitching videos together..."
  else if status = "complete" then "Demo video is ready!"
  else if status = "failed" then "Processing failed. Please try again."
  else "Processing..."

/-- The `progress_map` dict lookup with default 0 (lines 82-92). -/
def progress_map (status : String) : ℚ :=
  if status = "initialized" then 0
  else if status = "generating_suggestions" then 10
  else if status = "suggestions_ready" then 20
  else if status = "uploading" then 30
  else if status = "processing" then 80
  else if status = "complete" then 100
  else if status = "failed" then 0
  else 0

/-- `calculate_progress` (status-tracker lambda_function.py, lines 65-105):
during `uploading` with a non-empty suggestion list, the percentage is
`30 + (len(uploaded_videos) / len(suggestions)) * 50` — it counts the
*entries* of `uploaded_videos`, whatever their state. -/
def calculate_progress (session : Session) : Progress :=
  let status := session.status
  let total_videos := session.suggestions.length
  let uploaded_count := session.uploaded_videos.length
  let base_progress : ℚ :=
    if status = "uploading" ∧ 0 < total_videos then
      30 + ((uploaded_count : ℚ) / (total_videos : ℚ)) * 50
    else progress_map status
  { percentage := base_progress
    status := status
    uploaded := uploaded_count
    total := total_videos
    message := get_status_message status uploaded_count total_videos }

/-! ## Shared session helpers (`dynamo_utils.py`) and status constants -/

/-- `set_demo_url` (dynamo_utils.py, lines 156-164): a single
`update_session` writing `demo_url` and `status = 'complete'`. -/
def set_demo_url (s : Session) (demo_url : String) : Session :=
  { s with demo_url := demo_url, status := "complete" }

/-- `Status.INITIALIZED` (lambda-layer constants.py, line 9). -/
def Status.INITIALIZED : String := "initialized"

/-- `Status.GENERATING_SUGGESTIONS` (constants.py, line 10). -/
def Status.GENERATING_SUGGESTIONS : String := "generating_suggestions"

/-- `Status.SUGGESTIONS_READY` (constants.py, line 11). -/
def Status.SUGGESTIONS_READY : String := "suggestions_ready"

/-- `Status.Error` (constants.py, line 12). -/
def Status.Error : String := "error"

/-- The fixed status enumeration named by the specification (spec §4.1 /
§8), written down verbatim for comparison with what the code writes.  This
definition follows the spec's words, not the source. -/
def specStatusEnumeration : List String :=
  ["initialized", "generating_suggestions", "suggestions_ready", "uploading",
   "stitching", "stitching_failed", "stitched", "optimizing",
   "optimization_failed", "completed"]

/-! ## Service 6 session creator (`service6-session-creator/lambda_function.py`) -/

/-- Python string truthiness for `Option String` fields of a parsed JSON
body: `None` and the empty string are falsy. -/
def pyTruthyStr : Option String → Option String
  | none => none
  | some s => if s = "" then none else some s

/-- Python `a or b` over two possibly-missing strings, collapsed to `none`
when the result is falsy (the caller only tests falsiness afterwards). -/
def pyOr (a b : Option String) : Option String :=
  match pyTruthyStr a with
  | some s => some s
  | none => pyTruthyStr b

/-- Request body of service 6: `body.get('repo_url')`, `body.get('github_url')`. -/
structure Service6Request where
  repo_url : Option String
  github_url : Option String
deriving DecidableEq, Repr

/-- The analysis payload of Person 1's API as service 6 reads it
(`github_data.projectName`, `project_analysis.projectType`). -/
structure AnalysisResponse where
  projectName : String
  projectType : String
deriving DecidableEq, Repr

/-- Projection of the API-Gateway response of service 6 onto the fields the
claims are about: the HTTP status code, the `session_id` of a success body
(absent from every `error_response` body), and the `error` message. -/
structure Service6Response where
  statusCode : Nat
  session_id : Option String
  error : Option String
deriving DecidableEq, Repr

/-- Service 6 `lambda_handler` (lines 15-66).  `uuid8` is the generated
`str(uuid.uuid4())[:8]`; `analysis_api` is the outcome of
`call_github_analysis_api` (`none` = the request raised/timed out and the
helper returned `None`).  Control flow of the source:
* missing/empty `repo_url` and `github_url` → `error_response(..., 400)`;
* a non-`http` URL is prefixed with `https://` (no malformedness check);
* analysis `None` → `error_response('Failed to analyze repository', 500)`;
* otherwise `call_service4` returns `None` (a stub), so
  `suggestions.get('videos', [])` raises `AttributeError`, caught by the
  outer handler → `error_response(str(e))` with the default 500 code.
No path returns a session id to the caller. -/
def service6_lambda_handler (req : Service6Request) (uuid8 : String)
    (analysis_api : Option AnalysisResponse) : Service6Response :=
  match pyOr req.repo_url req.github_url with
  | none =>
      { statusCode := 400, session_id := none
        error := some "repo_url or github_url is required" }
  | some repo0 =>
      let repo_url := if pyStartsWith repo0 "http" then repo0 else "https://" ++ repo0
      let session_id := uuid8
      match analysis_api with
      | none =>
          { statusCode := 500, session_id := none
            error := some "Failed to analyze repository" }
      | some _ =>
          -- repo_url and session_id are dead past this point in the source:
          -- call_service4 returns None and len(None.get(...)) raises.
          let _ := repo_url
          let _ := session_id
          { statusCode := 500, session_id := none
            error := some "AttributeError: NoneType object has no attribute get" }

/-! ## Cleanup service (`cleanup-service/lambda_function.py`) and expiry -/

/-- Seconds in a day; `timedelta(days = n).total_seconds() = n * 86400`. -/
def SECONDS_PER_DAY : Int := 86400

/-- The `expires_at` stamped by service 5 at session creation
(service5-session-creator lambda_function.py, line 49):
`int((utcnow() + timedelta(days=30)).timestamp())`. -/
def service5_expires_at (creation_ts : Int) : Int :=
  creation_ts + 30 * SECONDS_PER_DAY

/-- The session projection the cleanup sweep reads. -/
structure StoredSession where
  id : String
  expires_at : Int
deriving DecidableEq, Repr

/-- The sweep's deletion threshold (cleanup-service lambda_function.py,
lines 36-37): `int((utcnow() - timedelta(days=days_to_keep)).timestamp())`. -/
def cleanup_threshold (now_ts days_to_keep : Int) : Int :=
  now_ts - days_to_keep * SECONDS_PER_DAY

/-- The cleanup sweep's selection (cleanup-service lambda_function.py,
lines 49-72): a scanned session is deleted (files and record) exactly when
`expires_at` is truthy (non-zero; a missing attribute defaults to `0`) and
`expires_at < threshold_timestamp`.  Returns the ids of the deleted
sessions, in scan order. -/
def cleanup_sweep (sessions : List StoredSession) (now_ts days_to_keep : Int) :
    List String :=
  ((sessions.filter fun s =>
      s.expires_at ≠ 0 ∧ s.expires_at < cleanup_threshold now_ts days_to_keep).map
    fun s => s.id)

/-! ## Video validator (`video-validator/handler.py`) -/

/-- `MAX_FILE_SIZE` default (handler.py, line 15). -/
def MAX_FILE_SIZE : Nat := 104857600

/-- `MIN_VIDEO_DURATION` default (handler.py, line 14). -/
def MIN_DURATION : ℚ := 5

/-- `MAX_VIDEO_DURATION` default (handler.py, line 13). -/
def MAX_DURATION : ℚ := 120

/-- One ffprobe stream as `validate_video` reads it.  `fps_eval` is the
value of `eval(stream.get('r_frame_rate', '0/1'))`: `none` models the eval
raising (e.g. `ZeroDivisionError` on `0/0`), which the outer `except` turns
into a `Validation error: ...` entry. -/
structure ProbeStream where
  codec_type : String
  width : Nat
  height : Nat
  codec_name : String
  fps_eval : Option ℚ
deriving DecidableEq, Repr

/-- The ffprobe metadata `validate_video` consumes: `format.duration` and
the stream list.  The whole structure is `none` when ffprobe exits
non-zero. -/
structure ProbeData where
  duration : ℚ
  streams : List ProbeStream
deriving DecidableEq, Repr

/-- The `for stream in streams: if codec_type == 'video': break` search. -/
def find_video_stream : List ProbeStream → Option ProbeStream
  | [] => none
  | s :: rest => if s.codec_type = "video" then some s else find_video_stream rest

/-- `validate_video` (video-validator handler.py, lines 81-172).  Inputs:
the temp file's size and the ffprobe outcome.  Mirrors the source's early
returns (oversized file, unreadable metadata, no video stream), the
exception path from the `fps` eval, the duration error checks, and the
resolution/codec warning checks; `valid` is set at the end iff `errors`
stayed empty. -/
def validate_video (file_size : Nat) (probe : Option ProbeData) : ValidationResult :=
  if file_size > MAX_FILE_SIZE then
    { valid := false
      errors := ["File size " ++ toString file_size ++ " exceeds maximum " ++
                 toString MAX_FILE_SIZE]
      warnings := [] }
  else match probe with
  | none => { valid := false, errors := ["Failed to read video metadata"], warnings := [] }
  | some metadata =>
      match find_video_stream metadata.streams with
      | none => { valid := false, errors := ["No video stream found"], warnings := [] }
      | some video_stream =>
          match video_stream.fps_eval with
          | none =>
              { valid := false
                errors := ["Validation error: division by zero"]
                warnings := [] }
          | some _ =>
              let duration := metadata.duration
              let width := video_stream.width
              let height := video_stream.height
              let codec := video_stream.codec_name
              let errors : List String :=
                if duration < MIN_DURATION then
                  ["Video too short: " ++ toString duration ++ "s (minimum " ++
                   toString MIN_DURATION ++ "s)"]
                else if duration > MAX_DURATION then
                  ["Video too long: " ++ toString duration ++ "s (maximum " ++
                   toString MAX_DURATION ++ "s)"]
                else []
              let warnings : List String :=
                (if width < 320 ∨ height < 240 then
                  ["Low resolution: " ++ toString width ++ "x" ++ toString height]
                 else []) ++
                (if width > 3840 ∨ height > 2160 then
                  ["Very high resolution: " ++ toString width ++ "x" ++ toString height]
                 else []) ++
                (if ["h264", "hevc", "vp9", "av1"].contains codec then []
                 else ["Non-standard codec: " ++ codec])
              { valid := errors.isEmpty, errors := errors, warnings := warnings }

/-! ## Service 4 AI suggestion generator (`service4-ai-suggestions/lambda_function.py`) -/

/-- The `technical_setup` sub-dict of a video suggestion. -/
structure TechnicalSetup where
  prerequisites : List String
  environment : String
  sample_data : String
deriving DecidableEq, Repr

/-- One video suggestion dict as produced by service 4. -/
structure Video where
  sequence_number : Nat
  title : String
  duration : String
  video_type : String
  what_to_record : List String
  narration_script : String
  key_highlights : List String
  technical_setup : TechnicalSetup
  expected_outcome : String
  transition_to_next : String
deriving DecidableEq, Repr

/-- A parsed suggestion document: the four fields `parse_gemini_response`
extracts from a successfully `json.loads`-ed Gemini reply, and also the
shape of the `create_fallback_suggestions` literal. -/
structure SuggestionDoc where
  videos : List Video
  overall_flow : String
  total_estimated_duration : String
  project_specific_tips : List String
deriving DecidableEq, Repr

/-- What can sit in the `videos` field of service 4's return value.  In the
source it is a plain list in every path except one:
`extract_suggestions_from_text` falls back to the *whole*
`create_fallback_suggestions` dict when it extracts nothing, and
`parse_gemini_response` stores that dict under `videos` unchanged. -/
inductive VideosValue where
  | ofList : List Video → VideosValue
  | ofDoc : SuggestionDoc → VideosValue
deriving DecidableEq, Repr

/-- The dict `generate_video_suggestions` returns. -/
structure GenResponse where
  videos : VideosValue
  overall_flow : String
  total_estimated_duration : String
  project_specific_tips : List String
deriving DecidableEq, Repr

/-- The literal of `create_fallback_suggestions` (service4
lambda_function.py, lines 522-576), as a `SuggestionDoc`. -/
def create_fallback_doc (project_name project_type : String) : SuggestionDoc :=
  let _ := project_type
  { videos :=
      [{ sequence_number := 1
         title := "Introduction to " ++ project_name
         duration := "2 minutes"
         video_type := "installation"
         what_to_record :=
           ["Show the " ++ project_name ++ " GitHub repository page",
            "Navigate to the README section",
            "Highlight the key features mentioned",
            "Show the installation instructions"]
         narration_script := "Welcome to " ++ project_name ++
           ". Let's start by understanding what this project does and how to get it set up."
         key_highlights := ["Project overview", "Main features", "Getting started"]
         technical_setup :=
           { prerequisites := ["Web browser", "GitHub account (optional)"]
             environment := "GitHub website"
             sample_data := "None required" }
         expected_outcome := "Viewers understand what the project does and basic setup"
         transition_to_next := "Now that we know what it is, let's see it in action..." },
       { sequence_number := 2
         title := "Exploring " ++ project_name ++ " Features"
         duration := "1.5 minutes"
         video_type := "feature_demo"
         what_to_record :=
           ["Open the project in a code editor or terminal",
            "Show the project structure and main files",
            "Demonstrate a basic use case or example",
            "Highlight the key functionality"]
         narration_script := "Let's dive into " ++ project_name ++
           " and see how to actually use it. We'll walk through a simple example."
         key_highlights := ["Architecture", "Key components", "Practical use"]
         technical_setup :=
           { prerequisites := ["Project installed/cloned", "Code editor or terminal"]
             environment := "Local development environment"
             sample_data := "Basic example from documentation" }
         expected_outcome := "Viewers can follow along and run a basic example"
         transition_to_next := "" }]
    overall_flow := "Introduction to the project followed by practical demonstration"
    total_estimated_duration := "3.5 minutes"
    project_specific_tips :=
      ["Keep the demo focused on the most important features",
       "Use real examples rather than hypothetical scenarios",
       "Speak clearly and at a moderate pace"] }

/-- `create_fallback_suggestions` as returned to callers of
`generate_video_suggestions`: the same dict, its `videos` being the list. -/
def create_fallback_suggestions (project_name project_type : String) : GenResponse :=
  let d := create_fallback_doc project_name project_type
  { videos := VideosValue.ofList d.videos
    overall_flow := d.overall_flow
    total_estimated_duration := d.total_estimated_duration
    project_specific_tips := d.project_specific_tips }

/-- Python `str.strip(chars)` for a fixed small char set (used as
`.strip('-*')`). -/
def pyStripChars (s : String) (chars : List Char) : String :=
  String.mk (((s.toList.dropWhile (chars.contains ·)).reverse.dropWhile
    (chars.contains ·)).reverse)

/-- `line.split('.', 1)[-1]`: everything after the first `.`, or the whole
string when it has no `.`. -/
def afterFirstDot (s : String) : String :=
  match dropThroughFirst '.' s.toList with
  | none => s
  | some rest => String.mk rest

/-- The title computed for an extracted line:
`line.split('.', 1)[-1].strip().strip('-*').strip()`. -/
def extract_title (line : String) : String :=
  pyStrip (pyStripChars (pyStrip (afterFirstDot line)) ['-', '*'])

/-- The suggestion dict `extract_suggestions_from_text` builds per matching
line (service4 lambda_function.py, lines 496-511). -/
def mkExtractedVideo (seq : Nat) (title : String) : Video :=
  { sequence_number := seq
    title := title
    duration := "1-2 minutes"
    video_type := "feature_demo"
    what_to_record := [title]
    narration_script := ""
    key_highlights := []
    technical_setup := { prerequisites := [], environment := "General", sample_data := "" }
    expected_outcome := ""
    transition_to_next := "" }

/-- Whether a stripped line opens a new suggestion:
`line.startswith(('1.', '2.', '3.', '-', '*')) and len(line) > 10`. -/
def lineOpensSuggestion (line : String) : Bool :=
  (pyStartsWith line "1." || pyStartsWith line "2." || pyStartsWith line "3." ||
   pyStartsWith line "-" || pyStartsWith line "*") && pyLen line > 10

/-- The accumulation loop of `extract_suggestions_from_text` (lines
486-514): on a matching line the pending suggestion is appended first, and
the new one gets `sequence_number = len(suggestions) + 1` after that
append. -/
def extractLoop : List String → List Video → Option Video → List Video
  | [], acc, cur =>
      match cur with
      | none => acc
      | some c => acc ++ [c]
  | l :: rest, acc, cur =>
      let line := pyStrip l
      if lineOpensSuggestion line then
        let acc2 := match cur with
          | none => acc
          | some c => acc ++ [c]
        extractLoop rest acc2 (some (mkExtractedVideo (acc2.length + 1) (extract_title line)))
      else extractLoop rest acc cur

/-- `extract_suggestions_from_text` (service4 lambda_function.py, lines
482-519): line-wise extraction; when nothing is extracted it returns the
whole `create_fallback_suggestions("Project", "Unknown")` dict instead of a
list. -/
def extract_suggestions_from_text (text : String) : VideosValue :=
  let suggestions := extractLoop (pySplitLines text) [] none
  if suggestions.isEmpty then VideosValue.ofDoc (create_fallback_doc "Project" "Unknown")
  else VideosValue.ofList suggestions

/-- The markdown-fence stripping at the top of `parse_gemini_response`
(lines 440-449). -/
def strip_code_fences (t0 : String) : String :=
  let t := pyStrip t0
  let t := if pyStartsWith t "```json" then pyDrop t 7 else t
  let t := if pyStartsWith t "```" then pyDrop t 3 else t
  let t := if pyEndsWith t "```" then pyDropRight t 3 else t
  pyStrip t

/-- `parse_gemini_response` (service4 lambda_function.py, lines 435-479).
`decode` stands for `json.loads` plus the four `data.get(...)` field reads:
`none` models `json.JSONDecodeError`, handled locally by falling back to
plain-text extraction with empty companion fields. -/
def parse_gemini_response (decode : String → Option SuggestionDoc)
    (response_text : String) : GenResponse :=
  let t := strip_code_fences response_text
  match decode t with
  | some data =>
      { videos := VideosValue.ofList data.videos
        overall_flow := data.overall_flow
        total_estimated_duration := data.total_estimated_duration
        project_specific_tips := data.project_specific_tips }
  | none =>
      { videos := extract_suggestions_from_text t
        overall_flow := ""
        total_estimated_duration := ""
        project_specific_tips := [] }

/-- The three ways the Gemini call can go inside
`generate_video_suggestions`: module-level `client` is `None`; the API call
(or anything else in the `try`) raises; or a response text comes back. -/
inductive GeminiCall where
  | clientNone : GeminiCall
  | apiError : GeminiCall
  | ok : String → GeminiCall
deriving DecidableEq, Repr

/-- `generate_video_suggestions` (service4 lambda_function.py, lines
261-296): no client or any raised exception → `create_fallback_suggestions`;
otherwise the response text is handed to `parse_gemini_response`.  The
function is total: no error propagates to the caller. -/
def generate_video_suggestions (call : GeminiCall)
    (decode : String → Option SuggestionDoc)
    (project_name project_type : String) : GenResponse :=
  match call with
  | GeminiCall.clientNone => create_fallback_suggestions project_name project_type
  | GeminiCall.apiError => create_fallback_suggestions project_name project_type
  | GeminiCall.ok text => parse_gemini_response decode text

/-! ## Concrete sample data used by the closed theorems -/

/-- A successful `convert_video` result. -/
def sampleConversion : ConversionDetails :=
  { success := true, output_size := 1048576, duration := 30, format := "mp4",
    resolution := "1920x1080", fps := 30, codec := "libx264" }

/-- An UploadRecord still in state `uploaded` (validation and conversion not
yet reached). -/
def sampleRecordUploaded : UploadRecord :=
  { status := "uploaded", s3_key := "videos/sess1/raw_1.mp4",
    validation := none, converted_data := none }

/-- A single stored suggestion. -/
def sampleSuggestion : Suggestion :=
  { id := "suggestion_1", sequence_number := 1, title := "Intro" }

/-- A session in stage `uploading` with one suggestion and one upload that
has not been converted. -/
def sampleSession : Session :=
  { id := "sess1", github_url := "https://github.com/acme/demo", project_name := "demo",
    status := "uploading", suggestions := [sampleSuggestion],
    uploaded_videos := [("suggestion_1", sampleRecordUploaded)],
    demo_url := "", created_at := "2025-01-01T00:00:00", expires_at := 2592000 }

/-- The `update_data` dict of `update_conversion_status`, as a function of
its inputs (factored out of the embedding for reuse in statements). -/
def convUpdateData (key : String) (t : Nat) (cr : ConversionDetails) : ConvertedData :=
  { status := "converted", standardized_key := key,
    conversion_timestamp := toString t, conversion_details := cr }

/-- The session produced by a successful `update_conversion_status` when the
record found at the suggestion key is `r`. -/
def convApply (s : Session) (sid key : String) (cr : ConversionDetails) (t : Nat)
    (r : UploadRecord) : Session :=
  let r' : UploadRecord := { r with converted_data := some (convUpdateData key t cr) }
  { s with uploaded_videos := dictSet s.uploaded_videos ("suggestion_" ++ sid) r' }

/-- `sampleSession` after a conversion result stamped at clock value 1000. -/
def sampleSessionConverted : Session :=
  { sampleSession with uploaded_videos := [("suggestion_1",
      { sampleRecordUploaded with converted_data := some (convUpdateData "k" 1000 sampleConversion) })] }

/-- `sampleSession` with an empty suggestion list. -/
def emptySuggestionSession : Session := { sampleSession with suggestions := [] }

/-! ## Helper lemmas on the association-list map -/

theorem dictGet_dictSet_self {α : Type} (l : List (String × α)) (k : String) (r v : α)
    (h : dictGet l k = some r) : dictGet (dictSet l k v) k = some v := by
  induction l with
  | nil => simp [dictGet] at h
  | cons hd tl ih =>
    obtain ⟨k0, v0⟩ := hd
    by_cases hk : k0 = k
    · simp [dictGet, dictSet, hk]
    · simp [dictGet, dictSet, hk] at h ⊢
      exact ih h

theorem dictSet_dictSet {α : Type} (l : List (String × α)) (k : String) (v v' : α) :
    dictSet (dictSet l k v) k v' = dictSet l k v' := by
  induction l with
  | nil => simp [dictSet]
  | cons hd tl ih =>
    obtain ⟨k0, v0⟩ := hd
    by_cases hk : k0 = k
    · simp [dictSet, hk]
    · simp [dictSet, hk, ih]

/-- A successful lookup determines the whole outcome of
`update_conversion_status`. -/
theorem update_conversion_status_eq (s : Session) (sid key : String)
    (cr : ConversionDetails) (t : Nat) (r : UploadRecord)
    (hg : dictGet s.uploaded_videos ("suggestion_" ++ sid) = some r) :
    update_conversion_status s sid key cr t = Except.ok (convApply s sid key cr t r) := by
  unfold update_conversion_status convApply convUpdateData
  rw [hg]

/-- `update_conversion_status` never touches the suggestion list. -/
theorem update_conversion_status_preserves_suggestions (s : Session) (sid key : String)
    (cr : ConversionDetails) (t : Nat) (s2 : Session)
    (h : update_conversion_status s sid key cr t = Except.ok s2) :
    s2.suggestions = s.suggestions := by
  unfold update_conversion_status at h
  cases hg : dictGet s.uploaded_videos ("suggestion_" ++ sid) with
  | none => rw [hg] at h; simp at h
  | some r =>
      rw [hg] at h
      simp only [Except.ok.injEq] at h
      subst h
      rfl

/-! ## Claim theorems -/

/-- C1: `check_all_videos_ready` returns true if and only if every
suggestion of the session (by its 1-based position) has an entry in
`uploaded_videos` under the key `suggestion_{i+1}` whose `converted_data`
is set; in particular it is false whenever at least one suggestion lacks a
converted UploadRecord. -/
theorem check_all_videos_ready_iff_all_converted (s : Session) :
    check_all_videos_ready (some s) = true ↔
      ∀ i < s.suggestions.length,
        ∃ r, dictGet s.uploaded_videos (suggestionKey (i + 1)) = some r ∧
          r.converted_data.isSome = true := by
  unfold check_all_videos_ready
  rw [List.all_eq_true]
  constructor
  · intro h i hi
    have hh := h i (List.mem_range.mpr hi)
    cases hg : dictGet s.uploaded_videos (suggestionKey (i + 1)) with
    | none => rw [hg] at hh; simp at hh
    | some r =>
        rw [hg] at hh
        exact ⟨r, rfl, hh⟩
  · intro h i hi
    obtain ⟨r, hget, hconv⟩ := h i (List.mem_range.mp hi)
    rw [hget]
    exact hconv

/-- C2 counterexample: a conversion result arriving for a record still in
state `uploaded` (validation stage not yet reached) is not rejected: the
update succeeds and the stored session changes, so no `OutOfOrderError`
protects the state. -/
theorem conversion_for_unreached_stage_applied_cex :
    (dictGet sampleSession.uploaded_videos "suggestion_1").map UploadRecord.status =
      some "uploaded" ∧
    (update_conversion_status sampleSession "1" "out" sampleConversion 5000).isOk = true ∧
    update_conversion_status sampleSession "1" "out" sampleConversion 5000 ≠
      Except.ok sampleSession := by
  decide

/-- C2 (amended): `update_conversion_status` performs no stage check at all:
it succeeds exactly when `uploaded_videos` has an entry for the suggestion —
whatever that record's status — and then overwrites `converted_data`
unconditionally; only a missing record makes the DynamoDB update raise (a
generic error, not an `OutOfOrderError`), leaving the state unchanged. -/
theorem update_conversion_status_no_stage_check (s : Session) (sid key : String)
    (cr : ConversionDetails) (t : Nat) :
    ((update_conversion_status s sid key cr t).isOk =
      (dictGet s.uploaded_videos ("suggestion_" ++ sid)).isSome) ∧
    ∀ s2, update_conversion_status s sid key cr t = Except.ok s2 →
      (dictGet s2.uploaded_videos ("suggestion_" ++ sid)).map UploadRecord.converted_data =
        some (some (convUpdateData key t cr)) := by
  unfold update_conversion_status
  cases hg : dictGet s.uploaded_videos ("suggestion_" ++ sid) with
  | none => simp [Except.isOk, Except.toBool]
  | some r =>
      constructor
      · simp [Except.isOk, Except.toBool]
      · intro s2 h2
        simp only [Except.ok.injEq] at h2
        subst h2
        simp [dictGet_dictSet_self _ _ r _ hg, convUpdateData]

/-- C3 counterexample: applying the same successful convert result twice is
not byte-for-byte idempotent: the second application re-reads the clock and
stores a different `conversion_timestamp`, so the state after the second
call differs from the state after the first. -/
theorem second_convert_application_changes_state_cex :
    Except.bind (update_conversion_status sampleSession "1" "k" sampleConversion 1000)
      (fun s1 => update_conversion_status s1 "1" "k" sampleConversion 2000) ≠
    update_conversion_status sampleSession "1" "k" sampleConversion 1000 := by
  decide

/-- C3 (amended): re-applying the same successful convert result is
idempotent only up to the clock stamp: the second application at clock `t2`
produces exactly the state a single application at `t2` would have produced,
and when the second application reads the same clock value as the first the
stored session is byte-for-byte identical. -/
theorem update_conversion_status_reapply (s s1 : Session) (sid key : String)
    (cr : ConversionDetails) (t1 t2 : Nat)
    (h : update_conversion_status s sid key cr t1 = Except.ok s1) :
    update_conversion_status s1 sid key cr t2 = update_conversion_status s sid key cr t2 ∧
    update_conversion_status s1 sid key cr t1 = Except.ok s1 := by
  have base : ∀ t3 : Nat, update_conversion_status s1 sid key cr t3 =
      update_conversion_status s sid key cr t3 := by
    intro t3
    cases hg : dictGet s.uploaded_videos ("suggestion_" ++ sid) with
    | none =>
        unfold update_conversion_status at h
        rw [hg] at h
        simp at h
    | some r =>
        rw [update_conversion_status_eq s sid key cr t1 r hg] at h
        simp only [Except.ok.injEq] at h
        subst h
        have hg1 : dictGet (convApply s sid key cr t1 r).uploaded_videos
            ("suggestion_" ++ sid) =
            some { r with converted_data := some (convUpdateData key t1 cr) } :=
          dictGet_dictSet_self _ _ r _ hg
        rw [update_conversion_status_eq _ sid key cr t3 _ hg1,
            update_conversion_status_eq s sid key cr t3 r hg]
        simp [convApply, dictSet_dictSet]
  exact ⟨base t2, by rw [base t1]; exact h⟩

/-- C3 witness: the amended statement at a concrete session, with the first
application stamped at clock 1000 and the second at clock 2000. -/
theorem update_conversion_status_reapply_witness :
    update_conversion_status sampleSessionConverted "1" "k" sampleConversion 2000 =
      update_conversion_status sampleSession "1" "k" sampleConversion 2000 ∧
    update_conversion_status sampleSessionConverted "1" "k" sampleConversion 1000 =
      Except.ok sampleSessionConverted :=
  update_conversion_status_reapply sampleSession sampleSessionConverted "1" "k"
    sampleConversion 1000 2000 (by decide)

/-- C4 counterexample: two `uploading` sessions that differ only in one
*non-converted* upload entry report different percentages (30 versus 80):
`calculate_progress` counts `uploaded_videos` entries, not conversions. -/
theorem progress_differs_on_nonconverted_entry_cex :
    sampleSession.status = "uploading" ∧
    sampleRecordUploaded.converted_data = none ∧
    (calculate_progress { sampleSession with uploaded_videos := [] }).percentage = 30 ∧
    (calculate_progress sampleSession).percentage = 80 := by
  refine ⟨rfl, rfl, ?_, ?_⟩
  · simp [calculate_progress, progress_map, sampleSession]
  · simp [calculate_progress, progress_map, sampleSession]
    norm_num

/-- C4 (amended): for a session in status `uploading` with a non-empty
suggestion list, the reported percentage is
`30 + (number of uploaded_videos entries / number of suggestions) * 50` —
it is determined by the count of upload entries regardless of their
conversion state, not by the fraction of converted records. -/
theorem calculate_progress_uploading_counts_entries (s : Session)
    (h1 : s.status = "uploading") (h2 : s.suggestions ≠ []) :
    (calculate_progress s).percentage =
      30 + ((s.uploaded_videos.length : ℚ) / (s.suggestions.length : ℚ)) * 50 := by
  simp only [calculate_progress]
  rw [if_pos ⟨h1, List.length_pos.mpr h2⟩]

/-- C4 witness: the amended formula evaluated on a concrete `uploading`
session with one suggestion and one (non-converted) upload entry. -/
theorem calculate_progress_uploading_counts_entries_witness :
    (calculate_progress sampleSession).percentage =
      30 + ((sampleSession.uploaded_videos.length : ℚ) /
        (sampleSession.suggestions.length : ℚ)) * 50 :=
  calculate_progress_uploading_counts_entries sampleSession rfl (by decide)

/-- C5 counterexample: on unparseable model output (the JSON decode fails)
`generate_video_suggestions` does not return the fixed fallback list: it
returns suggestions extracted from the plain text instead. -/
theorem unparseable_output_not_fallback_cex :
    generate_video_suggestions (GeminiCall.ok "1. Demonstrate the login flow")
      (fun _ => none) "MyProject" "web_app" ≠
    create_fallback_suggestions "MyProject" "web_app" := by
  decide

/-- C5 (amended): `generate_video_suggestions` is total (never propagates an
error) and returns the fixed non-empty fallback (two videos) when the Gemini
client is not initialized or the API call raises; but unparseable model
output is handled inside `parse_gemini_response` by plain-text extraction
(with a nested generic fallback document when nothing is extractable), not
by returning the fixed fallback list. -/
theorem generate_video_suggestions_fallback_on_error
    (decode : String → Option SuggestionDoc) (pname ptype : String) :
    generate_video_suggestions GeminiCall.clientNone decode pname ptype =
      create_fallback_suggestions pname ptype ∧
    generate_video_suggestions GeminiCall.apiError decode pname ptype =
      create_fallback_suggestions pname ptype ∧
    (create_fallback_doc pname ptype).videos.length = 2 ∧
    ∀ text, decode (strip_code_fences text) = none →
      (generate_video_suggestions (GeminiCall.ok text) decode pname ptype).videos =
        extract_suggestions_from_text (strip_code_fences text) := by
  refine ⟨rfl, rfl, rfl, ?_⟩
  intro text hdec
  simp only [generate_video_suggestions, parse_gemini_response]
  rw [hdec]

/-- C6 counterexample: `set_demo_url` writes the status `complete`, which is
not a member of the specification's fixed status enumeration (the
enumeration has `completed`). -/
theorem set_demo_url_status_outside_enumeration_cex :
    (set_demo_url sampleSession "https://cdn.example.com/demo.mp4").status =
      "complete" ∧
    "complete" ∉ specStatusEnumeration := by
  exact ⟨rfl, by decide⟩

/-- C6 (amended): the status values written by the code are not confined to
the spec's enumeration: every `set_demo_url` write stores `complete`
(outside the enumeration, which has `completed` instead), and the shared
`Status` constants include `error`, also outside the enumeration; only the
earlier lifecycle constants (`initialized`, ...) are inside it. -/
theorem status_writes_escape_spec_enumeration (s : Session) (u : String) :
    (set_demo_url s u).status = "complete" ∧
    "complete" ∉ specStatusEnumeration ∧
    Status.Error = "error" ∧
    Status.Error ∉ specStatusEnumeration ∧
    Status.INITIALIZED ∈ specStatusEnumeration := by
  exact ⟨rfl, by decide, rfl, by decide, by decide⟩

/-- C7 counterexample: with a well-formed non-empty `repo_url`, a failure of
the downstream repository-analysis call makes session creation itself fail
with a 500 response that contains no session id — the failure is not
recorded as a session-level error on a created session. -/
theorem analysis_failure_is_creation_failure_cex :
    service6_lambda_handler
      { repo_url := some "https://github.com/acme/demo", github_url := none }
      "abcd1234" none =
      { statusCode := 500, session_id := none,
        error := some "Failed to analyze repository" } := by
  decide

/-- C7 (amended): service 6 rejects with a 400 invalid-input error exactly
when both `repo_url` and `github_url` are missing or empty (a malformed
non-empty URL is not rejected — it is prefixed with `https://` when it does
not start with `http`); when the analysis call fails the handler returns a
500 error response without a session id (analysis failure is a creation
failure); and no path of the handler returns a session id at all. -/
theorem service6_handler_rejects_only_empty_url (req : Service6Request)
    (uuid8 : String) (analysis : Option AnalysisResponse) :
    ((service6_lambda_handler req uuid8 analysis).statusCode = 400 ↔
      pyOr req.repo_url req.github_url = none) ∧
    (service6_lambda_handler req uuid8 analysis).session_id = none ∧
    ∀ repo0, pyOr req.repo_url req.github_url = some repo0 → analysis = none →
      service6_lambda_handler req uuid8 analysis =
        { statusCode := 500, session_id := none,
          error := some "Failed to analyze repository" } := by
  unfold service6_lambda_handler
  cases hp : pyOr req.repo_url req.github_url with
  | none => simp
  | some repo0 => cases analysis with
    | none => simp
    | some a => simp

/-- C8 counterexample: a session whose `expires_at` (creation + 30 days) has
already passed at sweep time is *not* deleted by the sweep: the sweep only
deletes sessions whose expiry lies more than `DAYS_TO_KEEP` (30 days) in the
past. -/
theorem expired_session_survives_sweep_cex :
    service5_expires_at 0 < 2592001 ∧
    cleanup_sweep [{ id := "s1", expires_at := service5_expires_at 0 }] 2592001 30 = [] := by
  decide

/-- C8 (amended): the sweep deletes exactly the scanned sessions whose
`expires_at` is non-zero and earlier than sweep time minus
`days_to_keep` days; with the default 30 days and service 5's
`expires_at = creation + 30 days`, a session is deleted only once more than
60 days have passed since creation, so a session merely past its
`expires_at` is left untouched. -/
theorem cleanup_sweep_deletes_iff_past_threshold (sessions : List StoredSession)
    (now_ts days_to_keep : Int) (sid : String) :
    (sid ∈ cleanup_sweep sessions now_ts days_to_keep ↔
      ∃ s ∈ sessions, s.id = sid ∧ s.expires_at ≠ 0 ∧
        s.expires_at < cleanup_threshold now_ts days_to_keep) ∧
    ∀ creation_ts : Int,
      (service5_expires_at creation_ts < cleanup_threshold now_ts 30 ↔
        creation_ts + 60 * SECONDS_PER_DAY < now_ts) := by
  constructor
  · unfold cleanup_sweep
    simp only [List.mem_map, List.mem_filter]
    constructor
    · rintro ⟨s, ⟨hmem, hcond⟩, hid⟩
      simp only [decide_eq_true_eq] at hcond
      exact ⟨s, hmem, hid, hcond⟩
    · rintro ⟨s, hmem, hid, hcond⟩
      exact ⟨s, ⟨hmem, by simp [hcond]⟩, hid⟩
  · intro creation_ts
    unfold service5_expires_at cleanup_threshold SECONDS_PER_DAY
    omega

/-- C9: for a session whose suggestion list is empty,
`check_all_videos_ready` is vacuously true, and the converter's success path
therefore triggers stitching whenever its conversion write goes through,
even though nothing was uploaded or converted. -/
theorem check_all_videos_ready_vacuous_on_empty_suggestions (s : Session)
    (h : s.suggestions = []) :
    check_all_videos_ready (some s) = true ∧
    ∀ sid key cr t s2 trig,
      converter_success_continuation s sid key cr t = Except.ok (s2, trig) →
        trig = true := by
  constructor
  · simp only [check_all_videos_ready, h]
    simp
  · intro sid key cr t s2 trig hc
    unfold converter_success_continuation at hc
    cases hu : update_conversion_status s sid key cr t with
    | error e => rw [hu] at hc; simp at hc
    | ok s3 =>
        rw [hu] at hc
        simp only [Except.ok.injEq, Prod.mk.injEq] at hc
        obtain ⟨hs2, htrig⟩ := hc
        have hsg : s3.suggestions = s.suggestions :=
          update_conversion_status_preserves_suggestions s sid key cr t s3 hu
        subst htrig
        simp only [check_all_videos_ready, hsg, h]
        simp

/-- C9 witness: the vacuous readiness at a concrete session with an empty
suggestion list. -/
theorem check_all_videos_ready_vacuous_on_empty_suggestions_witness :
    check_all_videos_ready (some emptySuggestionSession) = true ∧
    ∀ sid key cr t s2 trig,
      converter_success_continuation emptySuggestionSession sid key cr t =
        Except.ok (s2, trig) → trig = true :=
  check_all_videos_ready_vacuous_on_empty_suggestions emptySuggestionSession rfl

/-- C10: the first half of the claim holds — `validate_video` marks a file
valid exactly when its error list is empty (warnings — low/high resolution,
non-standard codec — never cause failure).  The second half is a code bug:
the status write the claim (and spec §3's
`uploaded → validated|validation_failed` transition) describes never
happens, because `update_validation_status`'s UpdateExpression uses the
undeclared name token `#status`, so every call — here evaluated on the very
result `validate_video` produced — raises a `ValidationException`, storing
nothing. -/
theorem validate_video_valid_iff_no_errors (file_size : Nat) (probe : Option ProbeData) :
    ((validate_video file_size probe).valid = true ↔
      (validate_video file_size probe).errors = []) ∧
    ∀ s sid,
      (update_validation_status s sid (validate_video file_size probe)).isOk = false ∧
      ∀ s2, update_validation_status s sid (validate_video file_size probe) ≠
        Except.ok s2 := by
  constructor
  · unfold validate_video
    repeat' split
    all_goals simp [List.isEmpty_iff]
  · intro s sid
    exact ⟨rfl, fun s2 h2 => by simp [update_validation_status] at h2⟩
